import Mathlib

/-!
Shallow embedding of the gh-standup repository (Go) in Lean 4, together with
theorems settling the frozen claims about its specification.

The embedding covers:
  * `internal/github` (src/unnamed/part_000, second section): the four activity
    collectors `getCommits`, `getPullRequests`, `getIssues`, `getReviews`, their
    shared pagination loop, and the aggregator `CollectActivity`;
  * `internal/llm` (src/unnamed/part_000, first section): the activity
    formatter `formatActivitiesForLLM`, the temperature override table
    `modelTemperatureMap` with `getMappedTemperature`, the pure
    request-assembly part of `GenerateStandupReport`, and its response
    extraction;
  * `cmd/standup/main.go`: `countActivities`.

Conventions of the embedding:
  * Go strings are Lean `String`; Go `len(s)` on a string (a UTF-8 byte count)
    is `byteLen`; Go `strings.Split(s, "\n")` is `splitOnNl`;
    `strings.TrimSpace` is `trimSpace` (ASCII whitespace; the Unicode space
    classes beyond ASCII that Go also trims are not modelled);
    `strings.ToLower` is `toLowerStr` (ASCII case mapping; Go's Unicode
    case-folding of non-ASCII letters is not modelled);
    `strings.ReplaceAll` with a non-empty pattern is `replaceAll`.
  * Go `float64` sampling parameters are `ℚ`: the program only copies them
    around, it never does float arithmetic.
  * `time.Time` values formatted with "2006-01-02" are passed as the already
    formatted date strings; timestamps carried in records are `Int`.
  * Network calls (`c.client.Get`, the completion POST) are oracles passed in
    as functions: a collector's oracle maps the request URL to either an error
    string or the decoded `items` array; the completion oracle maps the
    assembled request to an error (any non-200 outcome or transport failure)
    or a decoded `Response`.
  * The `for` pagination loops break once `page > 10`; the recursion is made
    structural by passing the remaining page budget `fuel` explicitly, with
    `fuel = 11 - page` at every call (so `fuel = 10` at the initial `page = 1`).
    Besides the activities and the error the loop also returns the trace of
    page numbers it actually requested, and `CollectActivity` returns the
    trace of collectors it actually invoked; these traces are ghost data that
    merely record which effects the Go code performs, in order.
-/

/-! ## String helpers modelling the Go standard library -/

/-- ASCII lower-casing of one character, as `strings.ToLower` does for ASCII. -/
def lowerChar (c : Char) : Char :=
  if 65 ≤ c.toNat ∧ c.toNat ≤ 90 then Char.ofNat (c.toNat + 32) else c

/-- Models Go `strings.ToLower` (ASCII range). -/
def toLowerStr (s : String) : String := String.mk (s.data.map lowerChar)

/-- The ASCII whitespace characters trimmed by Go `strings.TrimSpace`. -/
def isSpaceChar (c : Char) : Bool :=
  c = ' ' || c = '\t' || c = '\n' || c = '\x0b' || c = '\x0c' || c = '\r'

/-- Models Go `strings.TrimSpace` (ASCII whitespace). -/
def trimSpace (s : String) : String :=
  String.mk (((s.data.dropWhile isSpaceChar).reverse.dropWhile isSpaceChar).reverse)

/-- Auxiliary for `splitOnNl`: accumulates the current (reversed) segment. -/
def splitNlAux : List Char → List Char → List (List Char)
  | [], cur => [cur.reverse]
  | c :: rest, cur =>
    if c = '\n' then cur.reverse :: splitNlAux rest []
    else splitNlAux rest (c :: cur)

/-- Models Go `strings.Split(s, "\n")`: always returns at least one piece. -/
def splitOnNl (s : String) : List String := (splitNlAux s.data []).map String.mk

/-- UTF-8 byte width of one scalar value. -/
def charUtf8Size (c : Char) : Nat :=
  if c.toNat < 128 then 1
  else if c.toNat < 2048 then 2
  else if c.toNat < 65536 then 3
  else 4

/-- Models Go `len(s)` on a string: the UTF-8 byte count. -/
def byteLen (s : String) : Nat := s.data.foldl (fun n c => n + charUtf8Size c) 0

/-- Models Go `strings.ReplaceAll(s, " ", "%20")` (single-character pattern). -/
def escapeSpaces (s : String) : String :=
  String.mk (s.data.foldr (fun c acc => if c = ' ' then '%' :: '2' :: '0' :: acc else c :: acc) [])

/-- `matchesAt pat l`: does `pat` occur at the very front of `l`? -/
def matchesAt : List Char → List Char → Bool
  | [], _ => true
  | _ :: _, [] => false
  | p :: ps, c :: cs => p = c && matchesAt ps cs

/-- `containsSub pat l`: does `pat` occur anywhere inside `l`?
Used in theorem statements to say a query string contains a search term. -/
def containsSub (pat : List Char) : List Char → Bool
  | [] => matchesAt pat []
  | c :: rest => matchesAt pat (c :: rest) || containsSub pat rest

/-- Auxiliary for `replaceAll`: left-to-right, non-overlapping replacement of
the non-empty pattern `p :: ps` by `rep`, as Go `strings.ReplaceAll` does. -/
def replaceAllAux (p : Char) (ps rep : List Char) : List Char → List Char
  | [] => []
  | c :: rest =>
    if matchesAt (p :: ps) (c :: rest) then rep ++ replaceAllAux p ps rep (rest.drop ps.length)
    else c :: replaceAllAux p ps rep rest
termination_by l => l.length
decreasing_by
  · simp only [List.length_drop, List.length_cons]; omega
  · simp only [List.length_cons]; omega

/-- Models Go `strings.ReplaceAll(s, pat, rep)` for the non-empty patterns the
source uses (the only call site has the literal pattern `{{activities}}`). -/
def replaceAll (s pat rep : String) : String :=
  match pat.data with
  | [] => s
  | p :: ps => String.mk (replaceAllAux p ps rep.data s.data)

theorem strData_append (a b : String) : (a ++ b).data = a.data ++ b.data := by
  cases a; cases b; rfl

theorem strExt {a b : String} (h : a.data = b.data) : a = b := by
  cases a; cases b; cases h; rfl

/-! ## Data model: `types.GitHubActivity` and the raw search items -/

/-- `types.GitHubActivity` — the unified activity record. -/
structure GitHubActivity where
  type : String
  repository : String
  title : String
  description : String
  url : String
  createdAt : Int
deriving DecidableEq

/-- One decoded item of the `search/commits` response (`getCommits`). -/
structure CommitItem where
  sha : String
  repositoryFullName : String
  message : String
  authorDate : Int
  htmlURL : String
deriving DecidableEq

/-- One decoded item of the `search/issues` response as decoded by
`getPullRequests` and `getIssues` (both read number/title/body/state). -/
structure IssueItem where
  number : Int
  title : String
  body : String
  state : String
  repositoryFullName : String
  htmlURL : String
  createdAt : Int
deriving DecidableEq

/-- One decoded item of the `search/issues` response as decoded by
`getReviews` (no body field). -/
structure ReviewItem where
  number : Int
  title : String
  repositoryFullName : String
  htmlURL : String
  createdAt : Int
deriving DecidableEq

/-! ## Source collectors (`internal/github`) -/

/-- The fixed page size `perPage := 100` shared by all four collectors. -/
def perPage : Nat := 100

/-- `getCommits`: the base query `author:<user> committer-date:<start>..<end>`,
plus ` repo:<owner/name>` when the repository filter is non-empty. -/
def commitsBaseQuery (username repo startDate endDate : String) : String :=
  let base := "author:" ++ username ++ " committer-date:" ++ startDate ++ ".." ++ endDate
  if repo ≠ "" then base ++ " repo:" ++ repo else base

/-- `getPullRequests`: the base query `author:<user> created:<start>..<end>`,
plus ` repo:<owner/name>` when the repository filter is non-empty. -/
def prsBaseQuery (username repo startDate endDate : String) : String :=
  let base := "author:" ++ username ++ " created:" ++ startDate ++ ".." ++ endDate
  if repo ≠ "" then base ++ " repo:" ++ repo else base

/-- `getIssues`: same base query shape as `getPullRequests`. -/
def issuesBaseQuery (username repo startDate endDate : String) : String :=
  let base := "author:" ++ username ++ " created:" ++ startDate ++ ".." ++ endDate
  if repo ≠ "" then base ++ " repo:" ++ repo else base

/-- `getReviews`: the base query `reviewed-by:<user> created:<start>..<end>`.
The Go function takes no repository parameter, so no `repo:` term is ever
appended. -/
def reviewsBaseQuery (username startDate endDate : String) : String :=
  "reviewed-by:" ++ username ++ " created:" ++ startDate ++ ".." ++ endDate

/-- The `search/commits` request URL built by `getCommits` for one page. -/
def commitsURL (username repo startDate endDate : String) (page : Nat) : String :=
  "search/commits?q=" ++ escapeSpaces (commitsBaseQuery username repo startDate endDate) ++
  "&per_page=" ++ toString perPage ++ "&page=" ++ toString page ++
  "&sort=committer-date&order=desc"

/-- The `search/issues` request URL built by `getPullRequests` for one page. -/
def prsURL (username repo startDate endDate : String) (page : Nat) : String :=
  "search/issues?q=" ++ escapeSpaces (prsBaseQuery username repo startDate endDate) ++
  "+type:pr&per_page=" ++ toString perPage ++ "&page=" ++ toString page ++
  "&sort=created&order=desc"

/-- The `search/issues` request URL built by `getIssues` for one page. -/
def issuesURL (username repo startDate endDate : String) (page : Nat) : String :=
  "search/issues?q=" ++ escapeSpaces (issuesBaseQuery username repo startDate endDate) ++
  "+type:issue&per_page=" ++ toString perPage ++ "&page=" ++ toString page ++
  "&sort=created&order=desc"

/-- The `search/issues` request URL built by `getReviews` for one page. -/
def reviewsURL (username startDate endDate : String) (page : Nat) : String :=
  "search/issues?q=" ++ escapeSpaces (reviewsBaseQuery username startDate endDate) ++
  "+type:pr&per_page=" ++ toString perPage ++ "&page=" ++ toString page ++
  "&sort=created&order=desc"

/-- `getCommits` item mapping: title is the first line of the commit message
(`strings.Split(msg, "\n")[0]`), description is the whole message. -/
def commitMap (item : CommitItem) : GitHubActivity :=
  { type := "commit"
    repository := item.repositoryFullName
    title := (splitOnNl item.message).headD ""
    description := item.message
    url := item.htmlURL
    createdAt := item.authorDate }

/-- `getPullRequests` item mapping. -/
def prMap (item : IssueItem) : GitHubActivity :=
  { type := "pull_request"
    repository := item.repositoryFullName
    title := "PR #" ++ toString item.number ++ ": " ++ item.title
    description := item.body
    url := item.htmlURL
    createdAt := item.createdAt }

/-- `getIssues` item mapping. -/
def issueMap (item : IssueItem) : GitHubActivity :=
  { type := "issue"
    repository := item.repositoryFullName
    title := "Issue #" ++ toString item.number ++ ": " ++ item.title
    description := item.body
    url := item.htmlURL
    createdAt := item.createdAt }

/-- `getReviews` item mapping: a synthesized description referencing the PR. -/
def reviewMap (item : ReviewItem) : GitHubActivity :=
  { type := "review"
    repository := item.repositoryFullName
    title := "Reviewed PR #" ++ toString item.number ++ ": " ++ item.title
    description := "Reviewed pull request: " ++ item.title
    url := item.htmlURL
    createdAt := item.createdAt }

/-- What one collector returns: the mapped activities, the error of the Go
multi-value return (`nil` is `none`), and the ghost trace of the page numbers
actually requested from the API. -/
structure FetchResult where
  activities : List GitHubActivity
  err : Option String
  pages : List Nat
deriving DecidableEq

/-- The pagination `for` loop shared verbatim by the four collectors
(`getCommits` lines 410-448 and its three copies): fetch the current page;
on error return the activities so far together with the error; stop on an
empty page; append the mapped items; stop on a short page (< `perPage`);
increment the page and stop once it exceeds 10.  `fuel` is the remaining page
budget, `11 - page` at every call, so the `page > 10` break is exactly the
`fuel = 0` base case. -/
def paginateLoop {α : Type} (fetch : Nat → Except String (List α))
    (mp : α → GitHubActivity) : Nat → Nat → List GitHubActivity → FetchResult
  | 0, _page, acc => ⟨acc, none, []⟩
  | fuel + 1, page, acc =>
    match fetch page with
    | Except.error e => ⟨acc, some e, [page]⟩
    | Except.ok items =>
      if items.length = 0 then ⟨acc, none, [page]⟩
      else
        let acc2 := acc ++ items.map mp
        if items.length < perPage then ⟨acc2, none, [page]⟩
        else
          let r := paginateLoop fetch mp fuel (page + 1) acc2
          ⟨r.activities, r.err, page :: r.pages⟩

/-- The per-page fetch performed by `getCommits`: one `c.client.Get` on the
commits search URL, decoded into the `items` array. -/
def commitsFetch (api : String → Except String (List CommitItem))
    (username repo startDate endDate : String) : Nat → Except String (List CommitItem) :=
  fun page => api (commitsURL username repo startDate endDate page)

/-- The per-page fetch performed by `getPullRequests`. -/
def prsFetch (api : String → Except String (List IssueItem))
    (username repo startDate endDate : String) : Nat → Except String (List IssueItem) :=
  fun page => api (prsURL username repo startDate endDate page)

/-- The per-page fetch performed by `getIssues`. -/
def issuesFetch (api : String → Except String (List IssueItem))
    (username repo startDate endDate : String) : Nat → Except String (List IssueItem) :=
  fun page => api (issuesURL username repo startDate endDate page)

/-- The per-page fetch performed by `getReviews` (no repository filter). -/
def reviewsFetch (api : String → Except String (List ReviewItem))
    (username startDate endDate : String) : Nat → Except String (List ReviewItem) :=
  fun page => api (reviewsURL username startDate endDate page)

/-- `getCommits` (the error it returns is wrapped in the source as
"commits search failed ...: %w"; `CollectActivity` only tests it for nil, so
the wrap text is kept inside the error value unmodified here). -/
def getCommits (api : String → Except String (List CommitItem))
    (username repo startDate endDate : String) : FetchResult :=
  paginateLoop (commitsFetch api username repo startDate endDate) commitMap 10 1 []

/-- `getPullRequests`. -/
def getPullRequests (api : String → Except String (List IssueItem))
    (username repo startDate endDate : String) : FetchResult :=
  paginateLoop (prsFetch api username repo startDate endDate) prMap 10 1 []

/-- `getIssues`. -/
def getIssues (api : String → Except String (List IssueItem))
    (username repo startDate endDate : String) : FetchResult :=
  paginateLoop (issuesFetch api username repo startDate endDate) issueMap 10 1 []

/-- `getReviews` — note: no repository parameter in the source. -/
def getReviews (api : String → Except String (List ReviewItem))
    (username startDate endDate : String) : FetchResult :=
  paginateLoop (reviewsFetch api username startDate endDate) reviewMap 10 1 []

/-! ## Activity aggregator (`CollectActivity`) -/

/-- The four search surfaces `CollectActivity` reaches through the one REST
client, split by the result shape each call site decodes into. -/
structure CollectAPI where
  commitsApi : String → Except String (List CommitItem)
  searchPRs : String → Except String (List IssueItem)
  searchIssues : String → Except String (List IssueItem)
  searchReviews : String → Except String (List ReviewItem)

/-- What `CollectActivity` returns: the merged activities, the error (`nil`
is `none`; the Go code returns a nil slice alongside a non-nil error), and
the ghost trace of the collectors actually invoked, in order. -/
structure CollectResult where
  activities : List GitHubActivity
  err : Option String
  collectorsInvoked : List String
deriving DecidableEq

/-- The straight-line tail of `CollectActivity` after the commit step:
pull requests, then issues, then reviews, each fatal on error
(`return nil, fmt.Errorf("failed to get ...: %w", err)`). -/
def afterCommits (capi : CollectAPI) (username repo startDate endDate : String)
    (activities : List GitHubActivity) : CollectResult :=
  let pr := getPullRequests capi.searchPRs username repo startDate endDate
  match pr.err with
  | some e =>
    ⟨[], some ("failed to get pull requests: " ++ e), ["commits", "pull_requests"]⟩
  | none =>
    let activities := activities ++ pr.activities
    let isr := getIssues capi.searchIssues username repo startDate endDate
    match isr.err with
    | some e =>
      ⟨[], some ("failed to get issues: " ++ e), ["commits", "pull_requests", "issues"]⟩
    | none =>
      let activities := activities ++ isr.activities
      let rr := getReviews capi.searchReviews username startDate endDate
      match rr.err with
      | some e =>
        ⟨[], some ("failed to get reviews: " ++ e),
          ["commits", "pull_requests", "issues", "reviews"]⟩
      | none =>
        ⟨activities ++ rr.activities, none,
          ["commits", "pull_requests", "issues", "reviews"]⟩

/-- `CollectActivity`: commits first — on error the failure is only logged and
no commit activities are appended; then the three fatal collectors. -/
def CollectActivity (capi : CollectAPI) (username repo startDate endDate : String) :
    CollectResult :=
  let cr := getCommits capi.commitsApi username repo startDate endDate
  match cr.err with
  | some _ => afterCommits capi username repo startDate endDate []
  | none => afterCommits capi username repo startDate endDate cr.activities

/-! ## Activity formatter (`formatActivitiesForLLM`, `internal/llm`) -/

/-- The four category buckets the formatter's classification switch fills. -/
structure Buckets where
  commits : List GitHubActivity
  prs : List GitHubActivity
  issues : List GitHubActivity
  reviews : List GitHubActivity
deriving DecidableEq

/-- The classification switch of `formatActivitiesForLLM` (lines 188-199):
each activity goes to the bucket of its `type`; any other type goes nowhere.
The source appends while walking left to right; recursing on the tail and
consing at the front yields the same four order-preserved bucket lists. -/
def classify : List GitHubActivity → Buckets
  | [] => ⟨[], [], [], []⟩
  | a :: rest =>
    let b := classify rest
    if a.type = "commit" then { b with commits := a :: b.commits }
    else if a.type = "pull_request" then { b with prs := a :: b.prs }
    else if a.type = "issue" then { b with issues := a :: b.issues }
    else if a.type = "review" then { b with reviews := a :: b.reviews }
    else b

/-- One commit's lines: `- [<repo>] <title>`, then, when the description
differs from the title and the second line (index 1 after splitting on
newline) is non-empty, an indented `Description:` line with that second line
trimmed. -/
def commitLine (c : GitHubActivity) : String :=
  "- [" ++ c.repository ++ "] " ++ c.title ++ "\n" ++
  (if c.description ≠ c.title then
     (let lines := splitOnNl c.description
      if 1 < lines.length ∧ lines.getD 1 "" ≠ "" then
        "  Description: " ++ trimSpace (lines.getD 1 "") ++ "\n"
      else "")
   else "")

/-- One pull request's lines: the `Description:` line is appended when the
body is non-empty and its Go `len` (UTF-8 bytes) is strictly below 200. -/
def prLine (p : GitHubActivity) : String :=
  "- [" ++ p.repository ++ "] " ++ p.title ++ "\n" ++
  (if p.description ≠ "" ∧ byteLen p.description < 200 then
     "  Description: " ++ trimSpace p.description ++ "\n"
   else "")

/-- One issue's lines: same rule as pull requests. -/
def issueLine (i : GitHubActivity) : String :=
  "- [" ++ i.repository ++ "] " ++ i.title ++ "\n" ++
  (if i.description ≠ "" ∧ byteLen i.description < 200 then
     "  Description: " ++ trimSpace i.description ++ "\n"
   else "")

/-- One review's line: never a description line. -/
def reviewLine (r : GitHubActivity) : String :=
  "- [" ++ r.repository ++ "] " ++ r.title ++ "\n"

/-- The COMMITS section: emitted only when the bucket is non-empty. -/
def commitsSection (cs : List GitHubActivity) : String :=
  if 0 < cs.length then "COMMITS:\n" ++ String.join (cs.map commitLine) ++ "\n" else ""

/-- The PULL REQUESTS section. -/
def prsSection (ps : List GitHubActivity) : String :=
  if 0 < ps.length then "PULL REQUESTS:\n" ++ String.join (ps.map prLine) ++ "\n" else ""

/-- The ISSUES section. -/
def issuesSection (is_ : List GitHubActivity) : String :=
  if 0 < is_.length then "ISSUES:\n" ++ String.join (is_.map issueLine) ++ "\n" else ""

/-- The CODE REVIEWS section. -/
def reviewsSection (rs : List GitHubActivity) : String :=
  if 0 < rs.length then "CODE REVIEWS:\n" ++ String.join (rs.map reviewLine) ++ "\n" else ""

/-- The builder output of `formatActivitiesForLLM` for a non-empty input:
the four sections in fixed order. -/
def formatBody (activities : List GitHubActivity) : String :=
  let b := classify activities
  commitsSection b.commits ++ prsSection b.prs ++ issuesSection b.issues ++
    reviewsSection b.reviews

/-- `formatActivitiesForLLM`: the fixed sentence for zero activities,
otherwise the section block. -/
def formatActivitiesForLLM (activities : List GitHubActivity) : String :=
  if activities.length = 0 then "No GitHub activity found for the specified period."
  else formatBody activities

/-! ## Prompt assembly and report generation (`internal/llm`) -/

/-- `ModelParameters` of the prompt configuration. -/
structure ModelParameters where
  temperature : ℚ
  topP : ℚ
deriving DecidableEq

/-- One configured prompt message. -/
structure PromptMessage where
  role : String
  content : String
deriving DecidableEq

/-- `PromptConfig`, the decoded embedded YAML document.  `loadPromptConfig`
parses it at run time; the parse itself is I/O-free but the YAML bytes are
external build-time data, so the decoded configuration is passed in. -/
structure PromptConfig where
  name : String
  description : String
  model : String
  modelParameters : ModelParameters
  messages : List PromptMessage
deriving DecidableEq

/-- One request message. -/
structure Message where
  role : String
  content : String
deriving DecidableEq

/-- The completion request envelope. -/
structure Request where
  messages : List Message
  model : String
  temperature : ℚ
  topP : ℚ
  stream : Bool
deriving DecidableEq

/-- One choice of the completion response (`message.content`). -/
structure ChoiceMessage where
  content : String
deriving DecidableEq

/-- One choice of the completion response. -/
structure Choice where
  message : ChoiceMessage
deriving DecidableEq

/-- The completion response envelope. -/
structure Response where
  choices : List Choice
deriving DecidableEq

/-- `modelTemperatureMap`: the static model → temperature override table,
keyed by lowercase model names. -/
def modelTemperatureMap : List (String × ℚ) :=
  [("openai/gpt-5-mini", 1), ("openai/gpt-5", 1)]

/-- `getMappedTemperature`: empty model names map to nothing; otherwise the
lower-cased name is looked up in the static table (Go returns `(0, false)`
or `(v, true)`; the value is only read when the flag is true, so the pair is
an `Option`). -/
def getMappedTemperature (model : String) : Option ℚ :=
  if model = "" then none
  else List.lookup (toLowerStr model) modelTemperatureMap

/-- The `{{activities}}` placeholder literal. -/
def activitiesPlaceholder : String := "\x7b\x7bactivities\x7d\x7d"

/-- The pure request-assembly part of `GenerateStandupReport` (lines 107-160):
format the activities, select the model (caller's if non-empty, else the
configuration's), take the caller's prompt messages when non-nil (a Go nil
slice is `none`), substitute the placeholder, resolve the temperature
(override table first, configured temperature otherwise), and always take
top-p from the configuration; `stream` is false. -/
def buildRequest (activities : List GitHubActivity) (model : String)
    (promptMessages : Option (List PromptMessage)) (promptConfig : PromptConfig) : Request :=
  let activitySummary := formatActivitiesForLLM activities
  let selectedModel := if model = "" then promptConfig.model else model
  let pm := match promptMessages with
    | none => promptConfig.messages
    | some l => l
  let messages := pm.map (fun m =>
    { role := m.role
      content := replaceAll m.content activitiesPlaceholder activitySummary })
  let effectiveTemperature := match getMappedTemperature selectedModel with
    | some t => t
    | none => promptConfig.modelParameters.temperature
  { messages := messages
    model := selectedModel
    temperature := effectiveTemperature
    topP := promptConfig.modelParameters.topP
    stream := false }

/-- `GenerateStandupReport` around the network call `callGitHubModels`,
which is the oracle `call`: a transport failure, a non-200 status or a
malformed body are its `error` outcomes.  A 200 response with no choices is
the "no response generated" error; otherwise the first choice's content,
whitespace-trimmed, is the report. -/
def GenerateStandupReport (call : Request → Except String Response)
    (activities : List GitHubActivity) (model : String)
    (promptMessages : Option (List PromptMessage)) (promptConfig : PromptConfig) :
    Except String String :=
  match call (buildRequest activities model promptMessages promptConfig) with
  | Except.error e => Except.error e
  | Except.ok response =>
    match response.choices with
    | [] => Except.error "no response generated from the model"
    | choice :: _ => Except.ok (trimSpace choice.message.content)

/-! ## `cmd/standup/main.go`: per-category counts -/

/-- The four counters returned by `countActivities`. -/
structure ActivityCounts where
  commits : Nat
  prs : Nat
  issues : Nat
  reviews : Nat
deriving DecidableEq

/-- `countActivities` of `cmd/standup/main.go`: one counter per known type;
any other type increments nothing. -/
def countActivities : List GitHubActivity → ActivityCounts
  | [] => ⟨0, 0, 0, 0⟩
  | a :: rest =>
    let c := countActivities rest
    if a.type = "commit" then { c with commits := c.commits + 1 }
    else if a.type = "pull_request" then { c with prs := c.prs + 1 }
    else if a.type = "issue" then { c with issues := c.issues + 1 }
    else if a.type = "review" then { c with reviews := c.reviews + 1 }
    else c

/-- The sum of the four per-category counts. -/
def totalCount (c : ActivityCounts) : Nat := c.commits + c.prs + c.issues + c.reviews

/-- The four known activity-type strings, as tested by the classification
switch of the formatter and by `countActivities`. -/
def knownType (t : String) : Bool :=
  t == "commit" || t == "pull_request" || t == "issue" || t == "review"

/-! ## Helper lemmas about the pagination loop -/

theorem paginateLoop_pages_length {α : Type} (fetch : Nat → Except String (List α))
    (mp : α → GitHubActivity) :
    ∀ fuel page acc, (paginateLoop fetch mp fuel page acc).pages.length ≤ fuel := by
  intro fuel
  induction fuel with
  | zero => intro page acc; simp [paginateLoop]
  | succ n ih =>
    intro page acc
    simp only [paginateLoop]
    cases hf : fetch page with
    | error e => simp
    | ok items =>
      simp only []
      split_ifs with h0 h1
      · simp
      · simp
      · have := ih (page + 1) (acc ++ items.map mp)
        simp only [List.length_cons]
        omega

theorem mem_dropLast_cons {p q : Nat} {l : List Nat} (h : p ∈ (q :: l).dropLast) :
    p = q ∨ p ∈ l.dropLast := by
  cases l with
  | nil => simp [List.dropLast] at h
  | cons x xs =>
    rw [List.dropLast_cons₂] at h
    rcases List.mem_cons.mp h with h' | h'
    · exact Or.inl h'
    · exact Or.inr h'

theorem paginateLoop_pages_full {α : Type} (fetch : Nat → Except String (List α))
    (mp : α → GitHubActivity) :
    ∀ fuel page acc p, p ∈ (paginateLoop fetch mp fuel page acc).pages.dropLast →
      ∃ items, fetch p = Except.ok items ∧ perPage ≤ items.length := by
  intro fuel
  induction fuel with
  | zero => intro page acc p hp; simp [paginateLoop] at hp
  | succ n ih =>
    intro page acc p hp
    cases hf : fetch page with
    | error e => simp [paginateLoop, hf] at hp
    | ok items =>
      simp only [paginateLoop, hf] at hp
      by_cases h0 : items.length = 0
      · rw [if_pos h0] at hp; simp at hp
      · rw [if_neg h0] at hp
        by_cases h1 : items.length < perPage
        · rw [if_pos h1] at hp; simp at hp
        · rw [if_neg h1] at hp
          dsimp only at hp
          rcases mem_dropLast_cons hp with rfl | hp'
          · exact ⟨items, hf, Nat.le_of_not_lt h1⟩
          · exact ih (page + 1) (acc ++ items.map mp) p hp'

theorem paginateLoop_activities_length {α : Type} (fetch : Nat → Except String (List α))
    (mp : α → GitHubActivity)
    (hb : ∀ p items, fetch p = Except.ok items → items.length ≤ perPage) :
    ∀ fuel page acc,
      (paginateLoop fetch mp fuel page acc).activities.length ≤
        acc.length + perPage * fuel := by
  intro fuel
  induction fuel with
  | zero => intro page acc; simp [paginateLoop]
  | succ n ih =>
    intro page acc
    cases hf : fetch page with
    | error e =>
      simp only [paginateLoop, hf]
      exact Nat.le_add_right _ _
    | ok items =>
      have hlen : items.length ≤ perPage := hb _ _ hf
      simp only [paginateLoop, hf]
      by_cases h0 : items.length = 0
      · rw [if_pos h0]
        exact Nat.le_add_right _ _
      · rw [if_neg h0]
        by_cases h1 : items.length < perPage
        · rw [if_pos h1]
          dsimp only
          simp only [List.length_append, List.length_map, perPage] at *
          omega
        · rw [if_neg h1]
          dsimp only
          have h2 := ih (page + 1) (acc ++ items.map mp)
          simp only [List.length_append, List.length_map, perPage] at *
          omega

theorem paginateLoop_mem {α : Type} (fetch : Nat → Except String (List α))
    (mp : α → GitHubActivity) :
    ∀ fuel page acc a, a ∈ (paginateLoop fetch mp fuel page acc).activities →
      a ∈ acc ∨ ∃ i, a = mp i := by
  intro fuel
  induction fuel with
  | zero => intro page acc a ha; simp only [paginateLoop] at ha; exact Or.inl ha
  | succ n ih =>
    intro page acc a ha
    cases hf : fetch page with
    | error e =>
      simp only [paginateLoop, hf] at ha
      exact Or.inl ha
    | ok items =>
      simp only [paginateLoop, hf] at ha
      by_cases h0 : items.length = 0
      · rw [if_pos h0] at ha; exact Or.inl ha
      · rw [if_neg h0] at ha
        by_cases h1 : items.length < perPage
        · rw [if_pos h1] at ha
          dsimp only at ha
          rcases List.mem_append.mp ha with ha' | ha'
          · exact Or.inl ha'
          · rcases List.mem_map.mp ha' with ⟨i, _, rfl⟩
            exact Or.inr ⟨i, rfl⟩
        · rw [if_neg h1] at ha
          dsimp only at ha
          rcases ih (page + 1) (acc ++ items.map mp) a ha with ha' | ha'
          · rcases List.mem_append.mp ha' with h | h
            · exact Or.inl h
            · rcases List.mem_map.mp h with ⟨i, _, rfl⟩
              exact Or.inr ⟨i, rfl⟩
          · exact Or.inr ha'

theorem getPullRequests_types (api : String → Except String (List IssueItem))
    (username repo startDate endDate : String) :
    ∀ a ∈ (getPullRequests api username repo startDate endDate).activities,
      a.type = "pull_request" := by
  intro a ha
  rcases paginateLoop_mem _ _ _ _ _ a ha with h | ⟨i, rfl⟩
  · simp at h
  · rfl

theorem getIssues_types (api : String → Except String (List IssueItem))
    (username repo startDate endDate : String) :
    ∀ a ∈ (getIssues api username repo startDate endDate).activities,
      a.type = "issue" := by
  intro a ha
  rcases paginateLoop_mem _ _ _ _ _ a ha with h | ⟨i, rfl⟩
  · simp at h
  · rfl

theorem getReviews_types (api : String → Except String (List ReviewItem))
    (username startDate endDate : String) :
    ∀ a ∈ (getReviews api username startDate endDate).activities,
      a.type = "review" := by
  intro a ha
  rcases paginateLoop_mem _ _ _ _ _ a ha with h | ⟨i, rfl⟩
  · simp at h
  · rfl

/-! ## Helper lemmas about classification, counting and formatting -/

theorem knownType_false_iff (t : String) :
    knownType t = false ↔
      t ≠ "commit" ∧ t ≠ "pull_request" ∧ t ≠ "issue" ∧ t ≠ "review" := by
  rw [knownType]
  simp only [Bool.or_eq_false_iff, beq_eq_false_iff_ne]
  tauto

theorem classify_cons (a : GitHubActivity) (l : List GitHubActivity) :
    classify (a :: l) =
      (let b := classify l
       if a.type = "commit" then { b with commits := a :: b.commits }
       else if a.type = "pull_request" then { b with prs := a :: b.prs }
       else if a.type = "issue" then { b with issues := a :: b.issues }
       else if a.type = "review" then { b with reviews := a :: b.reviews }
       else b) := rfl

theorem classify_skips_unknown :
    ∀ (as bs : List GitHubActivity) (x : GitHubActivity), knownType x.type = false →
      classify (as ++ x :: bs) = classify (as ++ bs) := by
  intro as bs x hx
  obtain ⟨h1, h2, h3, h4⟩ := (knownType_false_iff _).mp hx
  induction as with
  | nil =>
    rw [List.nil_append, List.nil_append, classify_cons]
    dsimp only
    rw [if_neg h1, if_neg h2, if_neg h3, if_neg h4]
  | cons a t ih =>
    rw [List.cons_append, List.cons_append, classify_cons, classify_cons, ih]

theorem countActivities_cons (a : GitHubActivity) (l : List GitHubActivity) :
    countActivities (a :: l) =
      (let c := countActivities l
       if a.type = "commit" then { c with commits := c.commits + 1 }
       else if a.type = "pull_request" then { c with prs := c.prs + 1 }
       else if a.type = "issue" then { c with issues := c.issues + 1 }
       else if a.type = "review" then { c with reviews := c.reviews + 1 }
       else c) := rfl

theorem countActivities_skips_unknown :
    ∀ (as bs : List GitHubActivity) (x : GitHubActivity), knownType x.type = false →
      countActivities (as ++ x :: bs) = countActivities (as ++ bs) := by
  intro as bs x hx
  obtain ⟨h1, h2, h3, h4⟩ := (knownType_false_iff _).mp hx
  induction as with
  | nil =>
    rw [List.nil_append, List.nil_append, countActivities_cons]
    dsimp only
    rw [if_neg h1, if_neg h2, if_neg h3, if_neg h4]
  | cons a t ih =>
    rw [List.cons_append, List.cons_append, countActivities_cons,
      countActivities_cons, ih]

theorem totalCount_le_length : ∀ as : List GitHubActivity,
    totalCount (countActivities as) ≤ as.length := by
  intro as
  induction as with
  | nil => simp [countActivities, totalCount]
  | cons a t ih =>
    simp only [countActivities, List.length_cons]
    split_ifs <;> simp only [totalCount] at * <;> omega

theorem totalCount_lt_of_unknown : ∀ as : List GitHubActivity,
    (∃ x ∈ as, knownType x.type = false) →
    totalCount (countActivities as) < as.length := by
  intro as
  induction as with
  | nil => rintro ⟨x, hx, _⟩; simp at hx
  | cons a t ih =>
    rintro ⟨x, hx, hux⟩
    rcases List.mem_cons.mp hx with rfl | hx'
    · obtain ⟨h1, h2, h3, h4⟩ := (knownType_false_iff _).mp hux
      simp only [countActivities, List.length_cons]
      rw [if_neg h1, if_neg h2, if_neg h3, if_neg h4]
      exact Nat.lt_succ_of_le (totalCount_le_length t)
    · have hlt := ih ⟨x, hx', hux⟩
      simp only [countActivities, List.length_cons]
      split_ifs <;> simp only [totalCount] at * <;> omega

theorem nl_mem_append_left {a b : String} (h : '\n' ∈ a.data) : '\n' ∈ (a ++ b).data := by
  rw [strData_append]
  exact List.mem_append.mpr (Or.inl h)

theorem nl_mem_append_right {a b : String} (h : '\n' ∈ b.data) : '\n' ∈ (a ++ b).data := by
  rw [strData_append]
  exact List.mem_append.mpr (Or.inr h)

theorem commitsSection_shape (cs : List GitHubActivity) :
    commitsSection cs = "" ∨ '\n' ∈ (commitsSection cs).data := by
  cases cs with
  | nil => exact Or.inl rfl
  | cons a t =>
    right
    rw [commitsSection, if_pos (by simp)]
    exact nl_mem_append_left (nl_mem_append_left (by decide))

theorem prsSection_shape (ps : List GitHubActivity) :
    prsSection ps = "" ∨ '\n' ∈ (prsSection ps).data := by
  cases ps with
  | nil => exact Or.inl rfl
  | cons a t =>
    right
    rw [prsSection, if_pos (by simp)]
    exact nl_mem_append_left (nl_mem_append_left (by decide))

theorem issuesSection_shape (is_ : List GitHubActivity) :
    issuesSection is_ = "" ∨ '\n' ∈ (issuesSection is_).data := by
  cases is_ with
  | nil => exact Or.inl rfl
  | cons a t =>
    right
    rw [issuesSection, if_pos (by simp)]
    exact nl_mem_append_left (nl_mem_append_left (by decide))

theorem reviewsSection_shape (rs : List GitHubActivity) :
    reviewsSection rs = "" ∨ '\n' ∈ (reviewsSection rs).data := by
  cases rs with
  | nil => exact Or.inl rfl
  | cons a t =>
    right
    rw [reviewsSection, if_pos (by simp)]
    exact nl_mem_append_left (nl_mem_append_left (by decide))

theorem formatBody_shape (as : List GitHubActivity) :
    formatBody as = "" ∨ '\n' ∈ (formatBody as).data := by
  rw [formatBody]
  rcases commitsSection_shape (classify as).commits with hc | hc
  · rcases prsSection_shape (classify as).prs with hp | hp
    · rcases issuesSection_shape (classify as).issues with hi | hi
      · rcases reviewsSection_shape (classify as).reviews with hr | hr
        · left; rw [hc, hp, hi, hr]; rfl
        · right; exact nl_mem_append_right hr
      · right; exact nl_mem_append_left (nl_mem_append_right hi)
    · right
      exact nl_mem_append_left (nl_mem_append_left (nl_mem_append_right hp))
  · right
    exact nl_mem_append_left (nl_mem_append_left (nl_mem_append_left hc))

/-! ## Helper lemmas about substring containment -/

theorem matchesAt_self : ∀ l : List Char, matchesAt l l = true := by
  intro l
  induction l with
  | nil => rfl
  | cons c cs ih => simp [matchesAt, ih]

theorem containsSub_here (pat rest : List Char) (h : matchesAt pat rest = true) :
    containsSub pat rest = true := by
  cases rest with
  | nil => simpa [containsSub] using h
  | cons c cs => simp [containsSub, h]

theorem containsSub_append_left : ∀ (l1 pat l2 : List Char),
    containsSub pat l2 = true → containsSub pat (l1 ++ l2) = true := by
  intro l1
  induction l1 with
  | nil => intro pat l2 h; simpa using h
  | cons c cs ih =>
    intro pat l2 h
    simp only [List.cons_append, containsSub, Bool.or_eq_true]
    exact Or.inr (ih pat l2 h)

theorem containsSub_repo_term (base repo : String) :
    containsSub (("repo:" ++ repo).data) ((base ++ " repo:" ++ repo).data) = true := by
  have h1 : (" repo:" : String).data = ' ' :: ("repo:" : String).data := rfl
  have hdata : (base ++ " repo:" ++ repo).data
      = (base.data ++ [' ']) ++ ("repo:" ++ repo).data := by
    rw [strData_append, strData_append, strData_append, h1]
    simp
  rw [hdata]
  exact containsSub_append_left _ _ _ (containsSub_here _ _ (matchesAt_self _))

/-! ## The pagination contract -/

/-- The pagination contract of one collector run `r` that fetched its pages
through `fetch`: at most 10 pages were requested; every page except the last
one requested came back full (so the loop stopped immediately after the first
error, empty or short page); and if every page the endpoint returns holds at
most `perPage` items then at most 1000 activities are produced. -/
def collectorPaginationOK {α : Type} (r : FetchResult)
    (fetch : Nat → Except String (List α)) : Prop :=
  r.pages.length ≤ 10
  ∧ (∀ p ∈ r.pages.dropLast, ∃ items, fetch p = Except.ok items ∧ perPage ≤ items.length)
  ∧ ((∀ p items, fetch p = Except.ok items → items.length ≤ perPage) →
      r.activities.length ≤ 1000)

theorem paginateLoop_paginationOK {α : Type} (fetch : Nat → Except String (List α))
    (mp : α → GitHubActivity) :
    collectorPaginationOK (paginateLoop fetch mp 10 1 []) fetch := by
  refine ⟨paginateLoop_pages_length fetch mp 10 1 [], paginateLoop_pages_full fetch mp 10 1 [], ?_⟩
  intro hb
  have h := paginateLoop_activities_length fetch mp hb 10 1 []
  simpa [perPage] using h

/-! ## Helper lemmas about `CollectActivity` -/

theorem CollectActivity_pr_fail (capi : CollectAPI) (username repo startDate endDate msg : String)
    (h : (getPullRequests capi.searchPRs username repo startDate endDate).err = some msg) :
    CollectActivity capi username repo startDate endDate =
      ⟨[], some ("failed to get pull requests: " ++ msg), ["commits", "pull_requests"]⟩ := by
  unfold CollectActivity afterCommits
  cases hc : (getCommits capi.commitsApi username repo startDate endDate).err <;>
    simp only [h, hc]

theorem CollectActivity_issues_fail (capi : CollectAPI)
    (username repo startDate endDate msg : String)
    (hpr : (getPullRequests capi.searchPRs username repo startDate endDate).err = none)
    (h : (getIssues capi.searchIssues username repo startDate endDate).err = some msg) :
    CollectActivity capi username repo startDate endDate =
      ⟨[], some ("failed to get issues: " ++ msg), ["commits", "pull_requests", "issues"]⟩ := by
  unfold CollectActivity afterCommits
  cases hc : (getCommits capi.commitsApi username repo startDate endDate).err <;>
    simp only [hpr, h, hc]

theorem CollectActivity_reviews_fail (capi : CollectAPI)
    (username repo startDate endDate msg : String)
    (hpr : (getPullRequests capi.searchPRs username repo startDate endDate).err = none)
    (his : (getIssues capi.searchIssues username repo startDate endDate).err = none)
    (h : (getReviews capi.searchReviews username startDate endDate).err = some msg) :
    CollectActivity capi username repo startDate endDate =
      ⟨[], some ("failed to get reviews: " ++ msg),
        ["commits", "pull_requests", "issues", "reviews"]⟩ := by
  unfold CollectActivity afterCommits
  cases hc : (getCommits capi.commitsApi username repo startDate endDate).err <;>
    simp only [hpr, his, h, hc]

theorem CollectActivity_all_ok (capi : CollectAPI) (username repo startDate endDate : String)
    (hpr : (getPullRequests capi.searchPRs username repo startDate endDate).err = none)
    (his : (getIssues capi.searchIssues username repo startDate endDate).err = none)
    (hrv : (getReviews capi.searchReviews username startDate endDate).err = none) :
    CollectActivity capi username repo startDate endDate =
      ⟨(match (getCommits capi.commitsApi username repo startDate endDate).err with
          | some _ => []
          | none => (getCommits capi.commitsApi username repo startDate endDate).activities) ++
          (getPullRequests capi.searchPRs username repo startDate endDate).activities ++
          (getIssues capi.searchIssues username repo startDate endDate).activities ++
          (getReviews capi.searchReviews username startDate endDate).activities,
        none, ["commits", "pull_requests", "issues", "reviews"]⟩ := by
  unfold CollectActivity afterCommits
  cases hc : (getCommits capi.commitsApi username repo startDate endDate).err <;>
    simp only [hpr, his, hrv, hc]

/-! ## Helper lemmas about formatting a single record -/

theorem strData_empty : ("" : String).data = [] := rfl

theorem str_append_empty (s : String) : s ++ "" = s := by
  apply strExt; rw [strData_append, strData_empty]; simp

theorem str_empty_append (s : String) : "" ++ s = s := by
  apply strExt; rw [strData_append, strData_empty]; simp

theorem str_append_assoc (a b c : String) : a ++ b ++ c = a ++ (b ++ c) := by
  apply strExt
  rw [strData_append, strData_append, strData_append, strData_append, List.append_assoc]

theorem format_single_pr (a : GitHubActivity) (ht : a.type = "pull_request") :
    formatActivitiesForLLM [a] = "PULL REQUESTS:\n" ++ prLine a ++ "\n" := by
  rw [formatActivitiesForLLM, if_neg (by simp), formatBody]
  have hcls : classify [a] = ⟨[], [a], [], []⟩ := by
    rw [classify_cons]
    dsimp only
    rw [if_neg (by rw [ht]; decide), if_pos ht]
    rfl
  rw [hcls]
  have e2 : prsSection [a] = "PULL REQUESTS:\n" ++ ("" ++ prLine a) ++ "\n" := rfl
  have e1 : commitsSection [] = "" := rfl
  have e4 : issuesSection [] = "" := rfl
  have e5 : reviewsSection [] = "" := rfl
  dsimp only
  rw [e2, e1, e4, e5]
  apply strExt
  simp [strData_append, strData_empty]

theorem format_single_issue (a : GitHubActivity) (ht : a.type = "issue") :
    formatActivitiesForLLM [a] = "ISSUES:\n" ++ issueLine a ++ "\n" := by
  rw [formatActivitiesForLLM, if_neg (by simp), formatBody]
  have hcls : classify [a] = ⟨[], [], [a], []⟩ := by
    rw [classify_cons]
    dsimp only
    rw [if_neg (by rw [ht]; decide), if_neg (by rw [ht]; decide), if_pos ht]
    rfl
  rw [hcls]
  have e3 : issuesSection [a] = "ISSUES:\n" ++ ("" ++ issueLine a) ++ "\n" := rfl
  have e1 : commitsSection [] = "" := rfl
  have e2 : prsSection [] = "" := rfl
  have e5 : reviewsSection [] = "" := rfl
  dsimp only
  rw [e3, e1, e2, e5]
  apply strExt
  simp [strData_append, strData_empty]

/-! ## Concrete oracles and records used by witnesses and counterexamples -/

def emptyOkCommits : String → Except String (List CommitItem) := fun _ => Except.ok []

def emptyOkIssues : String → Except String (List IssueItem) := fun _ => Except.ok []

def emptyOkReviews : String → Except String (List ReviewItem) := fun _ => Except.ok []

def errCommits : String → Except String (List CommitItem) := fun _ => Except.error "cfail"

def errPRs : String → Except String (List IssueItem) := fun _ => Except.error "boom"

def prItem0 : IssueItem :=
  ⟨7, "Add feature", "short body", "open", "octo/repo", "https://example.com/pr/7", 0⟩

def onePrPage : String → Except String (List IssueItem) := fun _ => Except.ok [prItem0]

def capiCommitFail : CollectAPI := ⟨errCommits, onePrPage, emptyOkIssues, emptyOkReviews⟩

def capiPrFail : CollectAPI := ⟨emptyOkCommits, errPRs, emptyOkIssues, emptyOkReviews⟩

/-! ## Claim C1 -/

/-- Claim C1: in every run of `CollectActivity`, a failure of the commit
collector never causes the aggregator to return an error — the run continues
exactly as if the commit search had found zero commits (and when the other
three collectors succeed, the error output is `none`) — whereas a failure of
the pull-request, issue or review collector makes the aggregator return that
(wrapped) error immediately, with the collector-invocation trace showing that
no later collector was invoked. -/
theorem collectActivity_partial_failure_policy
    (capi : CollectAPI) (username repo startDate endDate : String) :
    ((getCommits capi.commitsApi username repo startDate endDate).err.isSome →
      CollectActivity capi username repo startDate endDate =
        CollectActivity { capi with commitsApi := fun _ => Except.ok [] }
          username repo startDate endDate)
    ∧ ((getCommits capi.commitsApi username repo startDate endDate).err.isSome →
       (getPullRequests capi.searchPRs username repo startDate endDate).err = none →
       (getIssues capi.searchIssues username repo startDate endDate).err = none →
       (getReviews capi.searchReviews username startDate endDate).err = none →
       (CollectActivity capi username repo startDate endDate).err = none)
    ∧ (∀ msg, (getPullRequests capi.searchPRs username repo startDate endDate).err = some msg →
        CollectActivity capi username repo startDate endDate =
          ⟨[], some ("failed to get pull requests: " ++ msg), ["commits", "pull_requests"]⟩)
    ∧ (∀ msg, (getPullRequests capi.searchPRs username repo startDate endDate).err = none →
        (getIssues capi.searchIssues username repo startDate endDate).err = some msg →
        CollectActivity capi username repo startDate endDate =
          ⟨[], some ("failed to get issues: " ++ msg), ["commits", "pull_requests", "issues"]⟩)
    ∧ (∀ msg, (getPullRequests capi.searchPRs username repo startDate endDate).err = none →
        (getIssues capi.searchIssues username repo startDate endDate).err = none →
        (getReviews capi.searchReviews username startDate endDate).err = some msg →
        CollectActivity capi username repo startDate endDate =
          ⟨[], some ("failed to get reviews: " ++ msg),
            ["commits", "pull_requests", "issues", "reviews"]⟩) := by
  refine ⟨?_, ?_,
    fun msg h => CollectActivity_pr_fail capi username repo startDate endDate msg h,
    fun msg hpr h => CollectActivity_issues_fail capi username repo startDate endDate msg hpr h,
    fun msg hpr his h =>
      CollectActivity_reviews_fail capi username repo startDate endDate msg hpr his h⟩
  · intro h
    obtain ⟨e0, he⟩ := Option.isSome_iff_exists.mp h
    have hok : getCommits (fun _ : String => Except.ok ([] : List CommitItem))
        username repo startDate endDate = ⟨[], none, [1]⟩ := rfl
    simp only [CollectActivity, afterCommits, he, hok]
  · intro hcs hpr his hrv
    rw [CollectActivity_all_ok capi username repo startDate endDate hpr his hrv]

/-- Witness for C1: concrete oracles where the commit search fails (run equal
to the zero-commit run) and where the pull-request search fails (immediate
wrapped error, only the first two collectors invoked). -/
theorem collectActivity_partial_failure_policy_witness :
    CollectActivity capiCommitFail "alice" "" "2024-01-01" "2024-01-08" =
      CollectActivity { capiCommitFail with commitsApi := fun _ => Except.ok [] }
        "alice" "" "2024-01-01" "2024-01-08"
    ∧ CollectActivity capiPrFail "alice" "" "2024-01-01" "2024-01-08" =
      ⟨[], some ("failed to get pull requests: " ++ "boom"), ["commits", "pull_requests"]⟩ :=
  ⟨(collectActivity_partial_failure_policy capiCommitFail
      "alice" "" "2024-01-01" "2024-01-08").1 (by decide),
   (collectActivity_partial_failure_policy capiPrFail
      "alice" "" "2024-01-01" "2024-01-08").2.2.1 "boom" (by decide)⟩

/-! ## Claim C2 -/

/-- Claim C2: every one of the four collectors satisfies the pagination
contract for every oracle behaviour: it requests at most 10 pages (hence at
most 1000 results whenever the endpoint honours the requested page size of
100), and every page except the last one requested came back full, so the
loop stops immediately after the first page that errors, is empty, or holds
fewer than 100 items. -/
theorem collectors_pagination_bounded
    (api1 : String → Except String (List CommitItem))
    (api2 api3 : String → Except String (List IssueItem))
    (api4 : String → Except String (List ReviewItem))
    (username repo startDate endDate : String) :
    collectorPaginationOK (getCommits api1 username repo startDate endDate)
      (commitsFetch api1 username repo startDate endDate)
    ∧ collectorPaginationOK (getPullRequests api2 username repo startDate endDate)
      (prsFetch api2 username repo startDate endDate)
    ∧ collectorPaginationOK (getIssues api3 username repo startDate endDate)
      (issuesFetch api3 username repo startDate endDate)
    ∧ collectorPaginationOK (getReviews api4 username startDate endDate)
      (reviewsFetch api4 username startDate endDate) :=
  ⟨paginateLoop_paginationOK _ _, paginateLoop_paginationOK _ _,
   paginateLoop_paginationOK _ _, paginateLoop_paginationOK _ _⟩

/-- Witness for C2 at a concrete oracle (a failing commit endpoint): the page
trace is bounded by 10 and the result is bounded by 1000, the per-page bound
hypothesis being discharged vacuously. -/
theorem collectors_pagination_bounded_witness :
    (getCommits errCommits "alice" "" "2024-01-01" "2024-01-08").pages.length ≤ 10
    ∧ (getCommits errCommits "alice" "" "2024-01-01" "2024-01-08").activities.length ≤ 1000 := by
  have h := (collectors_pagination_bounded errCommits emptyOkIssues emptyOkIssues emptyOkReviews
    "alice" "" "2024-01-01" "2024-01-08").1
  refine ⟨h.1, h.2.2 ?_⟩
  intro p items hp
  exact absurd hp (by simp [commitsFetch, errCommits])

/-! ## Claim C9 -/

/-- Claim C9: whenever `CollectActivity` returns an error, it returns no
activity records at all — records from earlier successful collectors are
discarded — and on a commit-collector failure no commit-typed record (in
particular none from the commit pages fetched before the failing page)
appears in the result. -/
theorem collectActivity_atomic_on_error
    (capi : CollectAPI) (username repo startDate endDate : String) :
    (∀ msg, (CollectActivity capi username repo startDate endDate).err = some msg →
      (CollectActivity capi username repo startDate endDate).activities = [])
    ∧ ((getCommits capi.commitsApi username repo startDate endDate).err.isSome →
      ∀ a ∈ (CollectActivity capi username repo startDate endDate).activities,
        a.type ≠ "commit") := by
  constructor
  · intro msg hmsg
    cases hpr : (getPullRequests capi.searchPRs username repo startDate endDate).err with
    | some e1 => rw [CollectActivity_pr_fail capi username repo startDate endDate e1 hpr]
    | none =>
      cases his : (getIssues capi.searchIssues username repo startDate endDate).err with
      | some e2 => rw [CollectActivity_issues_fail capi username repo startDate endDate e2 hpr his]
      | none =>
        cases hrv : (getReviews capi.searchReviews username startDate endDate).err with
        | some e3 =>
          rw [CollectActivity_reviews_fail capi username repo startDate endDate e3 hpr his hrv]
        | none =>
          rw [CollectActivity_all_ok capi username repo startDate endDate hpr his hrv] at hmsg
          simp at hmsg
  · intro hcs a ha hat
    cases hpr : (getPullRequests capi.searchPRs username repo startDate endDate).err with
    | some e1 =>
      rw [CollectActivity_pr_fail capi username repo startDate endDate e1 hpr] at ha
      simp at ha
    | none =>
      cases his : (getIssues capi.searchIssues username repo startDate endDate).err with
      | some e2 =>
        rw [CollectActivity_issues_fail capi username repo startDate endDate e2 hpr his] at ha
        simp at ha
      | none =>
        cases hrv : (getReviews capi.searchReviews username startDate endDate).err with
        | some e3 =>
          rw [CollectActivity_reviews_fail capi username repo startDate endDate e3 hpr his hrv] at ha
          simp at ha
        | none =>
          rw [CollectActivity_all_ok capi username repo startDate endDate hpr his hrv] at ha
          obtain ⟨e0, he⟩ := Option.isSome_iff_exists.mp hcs
          rw [he] at ha
          dsimp only at ha
          simp only [List.nil_append, List.mem_append] at ha
          rcases ha with (h | h) | h
          · have := getPullRequests_types capi.searchPRs username repo startDate endDate a h
            rw [hat] at this
            exact absurd this (by decide)
          · have := getIssues_types capi.searchIssues username repo startDate endDate a h
            rw [hat] at this
            exact absurd this (by decide)
          · have := getReviews_types capi.searchReviews username startDate endDate a h
            rw [hat] at this
            exact absurd this (by decide)

/-- Witness for C9: a failing pull-request search yields an empty activity
list, and with a failing commit search the one surviving record (a mapped
pull request) is not commit-typed. -/
theorem collectActivity_atomic_on_error_witness :
    (CollectActivity capiPrFail "alice" "" "2024-01-01" "2024-01-08").activities = []
    ∧ (prMap prItem0).type ≠ "commit" :=
  ⟨(collectActivity_atomic_on_error capiPrFail "alice" "" "2024-01-01" "2024-01-08").1
      ("failed to get pull requests: " ++ "boom") (by decide),
   (collectActivity_atomic_on_error capiCommitFail "alice" "" "2024-01-01" "2024-01-08").2
      (by decide) (prMap prItem0) (by decide)⟩

/-! ## Claim C3 -/

def c3Item : CommitItem :=
  ⟨"abc123", "octo/repo", "Fix bug\n\nDetails here", 0, "https://example.com/c1"⟩

def c3ItemSingleNl : CommitItem :=
  ⟨"abc124", "octo/repo", "Fix bug\nDetails here", 0, "https://example.com/c2"⟩

/-- Counterexample to claim C3: for the commit message
"Fix bug\n\nDetails here" the mapped title is "Fix bug" as claimed, but the
formatted block is exactly "COMMITS:\n- [octo/repo] Fix bug\n\n" and contains
no "Details here" — the second line (index 1 after splitting on newline) is
the empty line between subject and body, so the `Description:` line is not
emitted. -/
theorem commit_blank_second_line_counterexample :
    (commitMap c3Item).title = "Fix bug"
    ∧ formatActivitiesForLLM [commitMap c3Item] = "COMMITS:\n- [octo/repo] Fix bug\n\n"
    ∧ containsSub ("Details here".data)
        ((formatActivitiesForLLM [commitMap c3Item]).data) = false :=
  ⟨by decide, by decide, by decide⟩

/-- Claim C3 as amended: the mapped title of "Fix bug\n\nDetails here" is
"Fix bug", but formatting emits no description line for it (its second line
is empty); the indented "Description: Details here" line is emitted exactly
when "Details here" is the non-empty second line, e.g. for the message
"Fix bug\nDetails here". -/
theorem commit_message_mapping_amended :
    (commitMap c3Item).title = "Fix bug"
    ∧ formatActivitiesForLLM [commitMap c3Item] = "COMMITS:\n- [octo/repo] Fix bug\n\n"
    ∧ (commitMap c3ItemSingleNl).title = "Fix bug"
    ∧ formatActivitiesForLLM [commitMap c3ItemSingleNl] =
        "COMMITS:\n- [octo/repo] Fix bug\n  Description: Details here\n\n" :=
  ⟨by decide, by decide, by decide, by decide⟩

/-! ## Claim C4 -/

/-- Counterexample to claim C4: with the non-empty repository filter
"octo/repo" supplied to the aggregator, the reviews collector's query — both
the base query and the full request URL it derives — does not contain the
term `repo:octo/repo`, because `getReviews` receives no repository argument
at all. -/
theorem reviews_query_lacks_repo_filter :
    containsSub (("repo:" ++ "octo/repo").data)
      ((reviewsBaseQuery "alice" "2024-01-01" "2024-01-08").data) = false
    ∧ containsSub (("repo:" ++ "octo/repo").data)
      ((reviewsURL "alice" "2024-01-01" "2024-01-08" 1).data) = false :=
  ⟨by decide, by decide⟩

/-- Claim C4 as amended: the commits, pull-requests and issues collectors
honour the repository filter — whenever it is non-empty, each of their
queries contains the term `repo:<owner/name>` — while the reviews collector
does not receive the filter (see the counterexample). -/
theorem repo_filter_three_collectors (username repo startDate endDate : String)
    (h : repo ≠ "") :
    containsSub (("repo:" ++ repo).data)
      ((commitsBaseQuery username repo startDate endDate).data) = true
    ∧ containsSub (("repo:" ++ repo).data)
      ((prsBaseQuery username repo startDate endDate).data) = true
    ∧ containsSub (("repo:" ++ repo).data)
      ((issuesBaseQuery username repo startDate endDate).data) = true := by
  refine ⟨?_, ?_, ?_⟩
  · rw [commitsBaseQuery]
    rw [if_pos h]
    exact containsSub_repo_term _ repo
  · rw [prsBaseQuery]
    rw [if_pos h]
    exact containsSub_repo_term _ repo
  · rw [issuesBaseQuery]
    rw [if_pos h]
    exact containsSub_repo_term _ repo

/-- Witness for the amended C4 at a concrete non-empty filter. -/
theorem repo_filter_three_collectors_witness :
    containsSub (("repo:" ++ "octo/repo").data)
      ((commitsBaseQuery "alice" "octo/repo" "2024-01-01" "2024-01-08").data) = true
    ∧ containsSub (("repo:" ++ "octo/repo").data)
      ((prsBaseQuery "alice" "octo/repo" "2024-01-01" "2024-01-08").data) = true
    ∧ containsSub (("repo:" ++ "octo/repo").data)
      ((issuesBaseQuery "alice" "octo/repo" "2024-01-01" "2024-01-08").data) = true :=
  repo_filter_three_collectors "alice" "octo/repo" "2024-01-01" "2024-01-08" (by decide)

/-! ## Claim C7 -/

/-- Claim C7: formatting an empty activity list yields exactly the sentence
"No GitHub activity found for the specified period." and no other input
produces that sentence (a non-empty input formats to the section block, which
is either empty or contains a newline, while the sentence is non-empty and
newline-free). -/
theorem format_empty_exact_sentence :
    formatActivitiesForLLM [] = "No GitHub activity found for the specified period."
    ∧ ∀ as : List GitHubActivity, as ≠ [] →
      formatActivitiesForLLM as ≠ "No GitHub activity found for the specified period." := by
  constructor
  · rfl
  · intro as has
    rw [formatActivitiesForLLM, if_neg (fun hl => has (List.length_eq_zero.mp hl))]
    rcases formatBody_shape as with h | h
    · rw [h]; decide
    · intro heq
      rw [heq] at h
      exact absurd h (by decide)

/-- Witness for C7: a singleton list does not format to the no-activity
sentence. -/
theorem format_empty_exact_sentence_witness :
    formatActivitiesForLLM [] = "No GitHub activity found for the specified period."
    ∧ formatActivitiesForLLM [⟨"commit", "octo/repo", "t", "t", "", 0⟩] ≠
        "No GitHub activity found for the specified period." :=
  ⟨format_empty_exact_sentence.1,
   format_empty_exact_sentence.2 [⟨"commit", "octo/repo", "t", "t", "", 0⟩] (by decide)⟩

/-! ## Claim C10 -/

/-- Claim C10: a record whose type is none of "commit", "pull_request",
"issue", "review" is silently dropped: removing it changes neither the
section block nor the per-category counts (nor the public formatted output,
as long as some record remains), and a list containing such a record has
per-category counts summing to strictly less than its length. -/
theorem unknown_type_dropped :
    (∀ (as bs : List GitHubActivity) (x : GitHubActivity), knownType x.type = false →
      formatBody (as ++ x :: bs) = formatBody (as ++ bs)
      ∧ (as ++ bs ≠ [] →
          formatActivitiesForLLM (as ++ x :: bs) = formatActivitiesForLLM (as ++ bs))
      ∧ countActivities (as ++ x :: bs) = countActivities (as ++ bs))
    ∧ ∀ as : List GitHubActivity, (∃ x ∈ as, knownType x.type = false) →
        totalCount (countActivities as) < as.length := by
  constructor
  · intro as bs x hx
    refine ⟨?_, ?_, countActivities_skips_unknown as bs x hx⟩
    · rw [formatBody, formatBody, classify_skips_unknown as bs x hx]
    · intro hne
      rw [formatActivitiesForLLM, formatActivitiesForLLM,
        if_neg (by simp), if_neg (fun hl => hne (List.length_eq_zero.mp hl)),
        formatBody, formatBody, classify_skips_unknown as bs x hx]
  · exact totalCount_lt_of_unknown

def knownRec : GitHubActivity := ⟨"commit", "octo/repo", "t", "t", "", 0⟩

def unknownRec : GitHubActivity := ⟨"deployment", "octo/repo", "d", "d", "", 0⟩

/-- Witness for C10 at concrete records: dropping the unknown-typed record
leaves the formatted output unchanged, and the counts of the two-element list
sum to strictly less than its length. -/
theorem unknown_type_dropped_witness :
    formatActivitiesForLLM [knownRec, unknownRec] = formatActivitiesForLLM [knownRec]
    ∧ totalCount (countActivities [knownRec, unknownRec]) < 2 :=
  ⟨((unknown_type_dropped.1 [knownRec] [] unknownRec (by decide)).2.1 (by decide)),
   unknown_type_dropped.2 [knownRec, unknownRec] ⟨unknownRec, by decide, by decide⟩⟩

/-! ## Claim C5 -/

/-- Claim C5: for every selected model name (the caller's model if non-empty,
else the configured one) and every prompt configuration, the request's
temperature is the override-table value whenever the lower-cased selected
name hits the static table — in particular any casing of "openai/gpt-5"
yields temperature 1 — and the configured temperature unchanged otherwise;
the request's top-p always comes from the configuration. -/
theorem temperature_resolution (activities : List GitHubActivity) (model : String)
    (promptMessages : Option (List PromptMessage)) (promptConfig : PromptConfig) :
    ((∀ t, getMappedTemperature (if model = "" then promptConfig.model else model) = some t →
        (buildRequest activities model promptMessages promptConfig).temperature = t)
      ∧ (getMappedTemperature (if model = "" then promptConfig.model else model) = none →
          (buildRequest activities model promptMessages promptConfig).temperature =
            promptConfig.modelParameters.temperature)
      ∧ (buildRequest activities model promptMessages promptConfig).topP =
          promptConfig.modelParameters.topP)
    ∧ (toLowerStr (if model = "" then promptConfig.model else model) = "openai/gpt-5" →
        (buildRequest activities model promptMessages promptConfig).temperature = 1) := by
  refine ⟨⟨?_, ?_, ?_⟩, ?_⟩
  · intro t ht
    simp only [buildRequest, ht]
  · intro hn
    simp only [buildRequest, hn]
  · rfl
  · intro hl
    have hne : (if model = "" then promptConfig.model else model) ≠ "" := by
      intro h0
      rw [h0] at hl
      exact absurd hl (by decide)
    have hm : getMappedTemperature (if model = "" then promptConfig.model else model)
        = some 1 := by
      rw [getMappedTemperature, if_neg hne, hl]
      decide
    simp only [buildRequest, hm]

def promptConfig0 : PromptConfig :=
  ⟨"standup", "generate a standup report", "openai/gpt-4o", ⟨3/10, 9/10⟩,
   [⟨"system", "You summarize."⟩, ⟨"user", activitiesPlaceholder⟩]⟩

/-- Witness for C5: "OpenAI/GPT-5" (mixed case) forces temperature 1 over the
configured 3/10; an unmapped model keeps the configured temperature; top-p is
the configured one. -/
theorem temperature_resolution_witness :
    (buildRequest [] "OpenAI/GPT-5" none promptConfig0).temperature = 1
    ∧ (buildRequest [] "some-other-model" none promptConfig0).temperature =
        promptConfig0.modelParameters.temperature
    ∧ (buildRequest [] "OpenAI/GPT-5" none promptConfig0).topP =
        promptConfig0.modelParameters.topP :=
  ⟨(temperature_resolution [] "OpenAI/GPT-5" none promptConfig0).2 (by decide),
   (temperature_resolution [] "some-other-model" none promptConfig0).1.2.1 (by decide),
   (temperature_resolution [] "OpenAI/GPT-5" none promptConfig0).1.2.2⟩

/-! ## Claim C6 -/

def c6MultibyteBody : String := String.mk (List.replicate 150 'é')

def c6MultibyteRec : GitHubActivity :=
  ⟨"pull_request", "octo/repo", "PR #4: M", c6MultibyteBody, "", 0⟩

set_option maxRecDepth 40000 in
/-- Counterexample to claim C6 as stated: a pull-request body of 150
two-byte characters is non-empty and strictly shorter than 200 characters,
yet no `Description:` line is emitted — the source tests Go `len`, the UTF-8
byte count (here 300), not the character count. -/
theorem pr_description_chars_counterexample :
    c6MultibyteBody ≠ ""
    ∧ c6MultibyteBody.length < 200
    ∧ containsSub ("Description:".data)
        ((formatActivitiesForLLM [c6MultibyteRec]).data) = false :=
  ⟨by decide, by decide, by decide⟩

/-- Claim C6 as amended: when formatting a pull-request or issue record, the
indented `Description:` line is appended if and only if the description is
non-empty and its UTF-8 byte count (Go `len`) is strictly below 200 — for
ASCII bodies this coincides with 200 characters, covering the claim's
250-character and 50-character instances. -/
theorem description_line_iff_bytes (a : GitHubActivity) :
    (a.type = "pull_request" →
      ((a.description ≠ "" ∧ byteLen a.description < 200) →
        formatActivitiesForLLM [a] =
          "PULL REQUESTS:\n" ++ ("- [" ++ a.repository ++ "] " ++ a.title ++ "\n" ++
            ("  Description: " ++ trimSpace a.description ++ "\n")) ++ "\n")
      ∧ (¬(a.description ≠ "" ∧ byteLen a.description < 200) →
        formatActivitiesForLLM [a] =
          "PULL REQUESTS:\n" ++ ("- [" ++ a.repository ++ "] " ++ a.title ++ "\n") ++ "\n"))
    ∧ (a.type = "issue" →
      ((a.description ≠ "" ∧ byteLen a.description < 200) →
        formatActivitiesForLLM [a] =
          "ISSUES:\n" ++ ("- [" ++ a.repository ++ "] " ++ a.title ++ "\n" ++
            ("  Description: " ++ trimSpace a.description ++ "\n")) ++ "\n")
      ∧ (¬(a.description ≠ "" ∧ byteLen a.description < 200) →
        formatActivitiesForLLM [a] =
          "ISSUES:\n" ++ ("- [" ++ a.repository ++ "] " ++ a.title ++ "\n") ++ "\n")) := by
  constructor
  · intro ht
    constructor
    · intro hd
      rw [format_single_pr a ht, prLine, if_pos hd]
    · intro hd
      rw [format_single_pr a ht, prLine, if_neg hd, str_append_empty]
  · intro ht
    constructor
    · intro hd
      rw [format_single_issue a ht, issueLine, if_pos hd]
    · intro hd
      rw [format_single_issue a ht, issueLine, if_neg hd, str_append_empty]

def c6ShortBody : String := String.mk (List.replicate 50 'a')

def c6LongAsciiBody : String := String.mk (List.replicate 250 'a')

def c6ShortRec : GitHubActivity := ⟨"pull_request", "octo/repo", "PR #2: S", c6ShortBody, "", 0⟩

def c6LongRec : GitHubActivity := ⟨"pull_request", "octo/repo", "PR #3: L", c6LongAsciiBody, "", 0⟩

set_option maxRecDepth 40000 in
/-- Witness for the amended C6: a 50-byte body gets the description line, a
250-byte body does not. -/
theorem description_line_iff_bytes_witness :
    formatActivitiesForLLM [c6ShortRec] =
      "PULL REQUESTS:\n" ++ ("- [" ++ c6ShortRec.repository ++ "] " ++ c6ShortRec.title ++ "\n" ++
        ("  Description: " ++ trimSpace c6ShortRec.description ++ "\n")) ++ "\n"
    ∧ formatActivitiesForLLM [c6LongRec] =
      "PULL REQUESTS:\n" ++ ("- [" ++ c6LongRec.repository ++ "] " ++ c6LongRec.title ++ "\n")
        ++ "\n" :=
  ⟨((description_line_iff_bytes c6ShortRec).1 rfl).1 (by decide),
   ((description_line_iff_bytes c6LongRec).1 rfl).2 (by decide)⟩

/-! ## Claim C8 -/

/-- Claim C8: round-trip through request assembly and response extraction —
for any 200 response, a non-empty choices list yields exactly the first
choice's message content with surrounding whitespace trimmed, and an empty
choices list yields the "no response generated" error instead of a report. -/
theorem report_roundtrip_extraction (activities : List GitHubActivity) (model : String)
    (promptMessages : Option (List PromptMessage)) (promptConfig : PromptConfig)
    (resp : Response) :
    (∀ c rest, resp.choices = c :: rest →
      GenerateStandupReport (fun _ => Except.ok resp) activities model promptMessages promptConfig
        = Except.ok (trimSpace c.message.content))
    ∧ (resp.choices = [] →
      GenerateStandupReport (fun _ => Except.ok resp) activities model promptMessages promptConfig
        = Except.error "no response generated from the model") := by
  constructor
  · intro c rest hc
    simp only [GenerateStandupReport, hc]
  · intro hc
    simp only [GenerateStandupReport, hc]

def resp0 : Response := ⟨[⟨⟨"  Report text  \n"⟩⟩]⟩

def respEmpty : Response := ⟨[]⟩

/-- Witness for C8: one choice with content "  Report text  \n" yields the
report "Report text"; an empty choices list yields the error. -/
theorem report_roundtrip_extraction_witness :
    GenerateStandupReport (fun _ => Except.ok resp0) [] "openai/gpt-4o" none promptConfig0
      = Except.ok "Report text"
    ∧ GenerateStandupReport (fun _ => Except.ok respEmpty) [] "openai/gpt-4o" none promptConfig0
      = Except.error "no response generated from the model" :=
  ⟨((report_roundtrip_extraction [] "openai/gpt-4o" none promptConfig0 resp0).1
      ⟨⟨"  Report text  \n"⟩⟩ [] rfl).trans (congrArg Except.ok (by decide)),
   (report_roundtrip_extraction [] "openai/gpt-4o" none promptConfig0 respEmpty).2 rfl⟩
